import Mathlib

/-!
Verification of `sbf2rinex_stream.py`: a shallow embedding of the
continuous SBF capture / periodic RINEX regeneration service, together
with theorems settling the specification's claims about it.

Modelling conventions:
* Byte strings are `List Nat`.
* The external `sbf2rin` subprocess is a black box constrained only by its
  documented interface (it may write to the path given after `-O`, and it
  exits zero or non-zero, or times out, or the executable is missing).
  Its behaviour in a given invocation is an environment event `ConvEvent`.
* The network is an environment too: each pass through the `while True`
  loop of `main` is driven by an `IterEvent` (connect failure, or a
  connected session delivering a list of `ReadEvent`s before the
  60-second interval deadline).
* In Python 3 `socket.error` is an alias of `OSError`, so both `except`
  clauses at the bottom of `main` print a message, sleep 10 seconds and
  continue the loop; no exception raised inside the loop body escapes it.
-/

namespace SbfStream

/-- Byte strings as lists of byte values. -/
abbrev Bytes := List Nat

/-! ### Module-level configuration constants (lines 7-28 of the source) -/

def RECEIVER_IP : String := "192.168.3.1"

def RECEIVER_PORT : Nat := 28785

def SBF2RIN_PATH : String := "/opt/Septentrio/RxTools/bin/sbf2rin"

def PROCESS_INTERVAL_SECONDS : Nat := 60

def OUTPUT_DIR : String := "rinex_stream_output"

def LIVE_RINEX_FILENAME : String := "live_nav.rnx"

def RINEX_VERSION : String := "211"

def RINEX_MARKER_NAME : String := "AFRL"

/-- `master_log_{YYYYMMDD}.sbf`, the capture log filename (line 85);
`date` is the `%Y%m%d` rendering of the UTC date at service start. -/
def masterSbfFilename (date : String) : String :=
  "master_log_" ++ date ++ ".sbf"

/-- `os.path.join(OUTPUT_DIR, master_sbf_filename)` (line 86). -/
def masterSbfFilepath (date : String) : String :=
  OUTPUT_DIR ++ "/" ++ masterSbfFilename date

/-- `os.path.join(OUTPUT_DIR, LIVE_RINEX_FILENAME)` (line 87): the fixed,
externally visible published RINEX path. -/
def liveRinexFilepath : String :=
  OUTPUT_DIR ++ "/" ++ LIVE_RINEX_FILENAME

/-! ### The converter invocation (`convert_sbf_to_rinex`, lines 30-70) -/

/-- The argv built at lines 38-44: `-f` names the input SBF file and `-O`
names the exact output path, which the converter overwrites. -/
def convertCommand (sbf_filepath output_rinex_path : String) : List String :=
  [SBF2RIN_PATH,
   "-f", sbf_filepath,
   "-R" ++ RINEX_VERSION,
   "-nN",
   "-O", output_rinex_path]

/-- Filesystem-affecting operations a conversion cycle could perform.
`run` is a subprocess invocation with a timeout in seconds; `rename` is an
atomic rename/replace (`os.rename` / `os.replace`), which the source never
calls but which the specification's publication story is about. -/
inductive FsOp
  | run (cmd : List String) (timeout : Nat)
  | rename (src dst : String)
  deriving DecidableEq, Repr

/-- The operations `convert_sbf_to_rinex` performs: exactly one
`subprocess.run(command, ..., timeout=30)` (lines 47-53), and nothing
else — in particular no rename of a candidate file into place. -/
def conversionEffects (sbf_filepath output_rinex_path : String) : List FsOp :=
  [FsOp.run (convertCommand sbf_filepath output_rinex_path) 30]

/-- Behaviour of one invocation of the external `sbf2rin` subprocess,
as seen by the Python code. The converter owns the `-O` output path while
it runs; on an abnormal end (`nonZeroExit`, `timedOut`) it may have
already (over)written that path (`written = some b`) or not
(`written = none`). `notFound` means the executable was missing, so the
subprocess never started and nothing was written. -/
inductive ConvEvent
  | notFound
  | nonZeroExit (returncode : Nat) (written : Option Bytes)
  | timedOut (written : Option Bytes)
  | success (output : Bytes)
  deriving DecidableEq, Repr

/-- Result of `convert_sbf_to_rinex` as observed by its caller and by a
reader of the output path: `published` is the content of the `-O` path
afterwards (`prior` being its content before), `ok` the Boolean return
value (line 61 / 65 / 68 return `False`, line 70 returns `True`), and
`errorReports` the number of error messages printed by the `except`
arms (each failure arm prints its diagnostic exactly once). -/
structure ConvResult where
  published : Option Bytes
  ok : Bool
  errorReports : Nat
  deriving DecidableEq, Repr

/-- `convert_sbf_to_rinex` (lines 30-70), with the subprocess behaviour
supplied as an event. The code never touches the output path itself:
its content after the call is the converter's doing alone. -/
def convert_sbf_to_rinex (prior : Option Bytes) (ev : ConvEvent) : ConvResult :=
  match ev with
  | .notFound => ⟨prior, false, 1⟩
  | .nonZeroExit _ w =>
      ⟨match w with | some b => some b | none => prior, false, 1⟩
  | .timedOut w =>
      ⟨match w with | some b => some b | none => prior, false, 1⟩
  | .success output => ⟨some output, true, 0⟩

/-! ### The capture loop (lines 101-110) -/

/-- One `sock.recv(4096)` step inside the interval loop:
`recv d` — the read returns chunk `d` (the empty chunk means the remote
closed the connection, line 106's `if not data: break`), after which the
chunk is appended to the log (line 109);
`recvFail` — `sock.recv` raises `socket.error`;
`writeFail d` — the read returned `d` but `sbf_file.write(data)` raised
(durable log write failure). -/
inductive ReadEvent
  | recv (data : Bytes)
  | recvFail
  | writeFail (data : Bytes)
  deriving DecidableEq, Repr

/-- How the inner `while time.time() - start_time < PROCESS_INTERVAL_SECONDS`
loop ended: the deadline passed, the remote closed cleanly (`break`),
or an exception aborted it (socket read error / log write error). -/
inductive ReadOutcome
  | deadline
  | closed
  | sockError
  | ioError
  deriving DecidableEq, Repr

/-- The interval capture loop (lines 102-110): starting from log content
`log` and byte counter `n` (initialised to 0 at line 103), consume the
reads the environment delivers before the deadline. Successful chunks
are appended to the log and counted; an empty chunk breaks the loop; an
exception aborts it (the `with open` block closes the file, keeping what
was already written). -/
def captureLoop : Bytes → Nat → List ReadEvent → Bytes × Nat × ReadOutcome
  | log, n, [] => (log, n, .deadline)
  | log, n, .recv d :: rest =>
      if d.isEmpty then (log, n, .closed)
      else captureLoop (log ++ d) (n + d.length) rest
  | log, n, .recvFail :: _ => (log, n, .sockError)
  | log, n, .writeFail _ :: _ => (log, n, .ioError)

/-- The bytes the capture loop durably appends for a given read schedule:
every non-empty received chunk up to the first terminator (deadline,
remote close, read error or write error), in receipt order. -/
def writtenBytes : List ReadEvent → Bytes
  | [] => []
  | .recv d :: rest => if d.isEmpty then [] else d ++ writtenBytes rest
  | .recvFail :: _ => []
  | .writeFail _ :: _ => []

/-- How a given read schedule terminates the interval loop, independent of
the log content and counter it starts from. -/
def readsOutcome : List ReadEvent → ReadOutcome
  | [] => .deadline
  | .recv d :: rest => if d.isEmpty then .closed else readsOutcome rest
  | .recvFail :: _ => .sockError
  | .writeFail _ :: _ => .ioError

/-! ### One pass through the `while True` loop of `main` (lines 93-125) -/

/-- What the environment does during one pass of the outer loop:
either `sock.connect` raises (`connectFail`), or a session is
established and delivers `reads` until the interval ends; if the pass
reaches the conversion step, the external converter behaves as `conv`. -/
inductive IterEvent
  | connectFail
  | session (reads : List ReadEvent) (conv : ConvEvent)
  deriving DecidableEq, Repr

/-- Observables of one pass of the outer loop: the capture-log and
published-file contents afterwards, the final value of `bytes_received`,
the subprocess invocations attempted (argv paired with the timeout, one
entry when `convert_sbf_to_rinex` was called, empty when the cycle was
skipped), how many conversion error messages were printed, and how long
the `except` handler slept (`time.sleep(10)` on any caught exception,
0 otherwise). -/
structure IterResult where
  log : Bytes
  pub : Option Bytes
  bytesReceived : Nat
  convCalls : List (List String × Nat)
  convReports : Nat
  sleepSecs : Nat
  deriving DecidableEq, Repr

/-- Whether the pass invoked `convert_sbf_to_rinex`. -/
def IterResult.convInvoked (r : IterResult) : Bool :=
  !r.convCalls.isEmpty

/-- Lines 112-118, reached only when the `try` body completes without an
exception (deadline passed or remote closed): convert when
`bytes_received > 0`, otherwise print the skip message and do nothing. -/
def afterCapture (date : String) (log : Bytes) (pub : Option Bytes)
    (n : Nat) (conv : ConvEvent) : IterResult :=
  if 0 < n then
    let c := convert_sbf_to_rinex pub conv
    ⟨log, c.published, n,
     [(convertCommand (masterSbfFilepath date) liveRinexFilepath, 30)],
     c.errorReports, 0⟩
  else
    ⟨log, pub, n, [], 0, 0⟩

/-- One pass of the `while True` loop (lines 93-125), from capture-log
content `log` and published content `pub`. A `socket.error` (alias of
`OSError`, so it also covers the log write failure) or any other
exception lands in the handlers at lines 120-125: print, sleep 10
seconds, continue — the conversion step is not reached on that pass. -/
def runIteration (date : String) (log : Bytes) (pub : Option Bytes) :
    IterEvent → IterResult
  | .connectFail => ⟨log, pub, 0, [], 0, 10⟩
  | .session reads conv =>
      match captureLoop log 0 reads with
      | (log', n, .deadline) => afterCapture date log' pub n conv
      | (log', n, .closed) => afterCapture date log' pub n conv
      | (log', n, .sockError) => ⟨log', pub, n, [], 0, 10⟩
      | (log', n, .ioError) => ⟨log', pub, n, [], 0, 10⟩

/-- The mutable state the loop carries between passes: the capture log's
content and the published file's content. -/
structure MainState where
  log : Bytes
  pub : Option Bytes
  deriving DecidableEq, Repr

/-- The service's `while True` loop run over a finite schedule of
environment events: every event is processed (the loop body catches every
exception it can raise, so the loop never terminates on its own), and the
pass results are returned in order. -/
def serviceRun (date : String) (s : MainState) :
    List IterEvent → MainState × List IterResult
  | [] => (s, [])
  | ev :: rest =>
      let r := runIteration date s.log s.pub ev
      let next := serviceRun date ⟨r.log, r.pub⟩ rest
      (next.1, r :: next.2)

/-! ### Retry timing (lines 120-125) -/

/-- Seconds slept at the end of a pass, as a function of the event alone
(the capture loop's outcome does not depend on the prior state): 10 when
an exception was caught, 0 otherwise. -/
def iterSleep : IterEvent → Nat
  | .connectFail => 10
  | .session reads _ =>
      match (captureLoop [] 0 reads).2.2 with
      | .sockError => 10
      | .ioError => 10
      | _ => 0

/-- Whether the pass's event is a connection failure in the claim's sense:
`sock.connect` raised, or `sock.recv` raised mid-interval. -/
def connectionFailed : IterEvent → Bool
  | .connectFail => true
  | .session reads _ =>
      match (captureLoop [] 0 reads).2.2 with
      | .sockError => true
      | _ => false

/-- Timestamps at which successive connection attempts (tops of the
`while True` loop) occur: the pass beginning at time `t` takes some
nonnegative duration `dur` for its connect/capture/convert work and then
sleeps `iterSleep ev` seconds if an exception was caught. -/
def attemptTimes (t : Nat) : List (Nat × IterEvent) → List Nat
  | [] => []
  | (dur, ev) :: rest => t :: attemptTimes (t + dur + iterSleep ev) rest

/-! ### Startup (lines 80-82) -/

/-- A flat filesystem: existing directory names plus files with contents. -/
structure Fs where
  dirs : List String
  files : List (String × Bytes)
  deriving DecidableEq, Repr

/-- `os.path.exists` for this model: the path names a directory or a file. -/
def pathExists (fs : Fs) (p : String) : Bool :=
  fs.dirs.contains p || (fs.files.lookup p).isSome

/-- Lines 80-82: `if not os.path.exists(OUTPUT_DIR): os.makedirs(OUTPUT_DIR)`,
run once at startup before any connection attempt or capture. -/
def startupMkdir (fs : Fs) : Fs :=
  if pathExists fs OUTPUT_DIR then fs else { fs with dirs := OUTPUT_DIR :: fs.dirs }

/-- A trouble-free session: every chunk of `p.1` is received and written
in order (no read error, no write error, no remote close), and the
converter behaves as `p.2` if the cycle converts. -/
def cleanSession (p : List Bytes × ConvEvent) : IterEvent :=
  IterEvent.session (p.1.map ReadEvent.recv) p.2

/-! ### Basic lemmas about the embedding -/

/-- The interval loop appends exactly the written bytes, adds their count
to the counter, and ends with the outcome dictated by the read schedule. -/
lemma captureLoop_eq (reads : List ReadEvent) : ∀ (log : Bytes) (n : Nat),
    captureLoop log n reads =
      (log ++ writtenBytes reads, n + (writtenBytes reads).length,
       readsOutcome reads) := by
  induction reads with
  | nil =>
      intro log n
      simp [captureLoop, writtenBytes, readsOutcome]
  | cons e rest ih =>
      intro log n
      cases e with
      | recv d =>
          by_cases hd : d.isEmpty
          · simp [captureLoop, writtenBytes, readsOutcome, hd]
          · simp only [captureLoop, writtenBytes, readsOutcome, hd,
              Bool.false_eq_true, ite_false, ih]
            simp [Prod.ext_iff, List.append_assoc, List.length_append]
            omega
      | recvFail =>
          simp [captureLoop, writtenBytes, readsOutcome]
      | writeFail d =>
          simp [captureLoop, writtenBytes, readsOutcome]

/-- A connected pass, written as a function of the interval's written
bytes and outcome rather than of the raw loop. -/
lemma runIteration_session (date : String) (log : Bytes) (pub : Option Bytes)
    (reads : List ReadEvent) (conv : ConvEvent) :
    runIteration date log pub (.session reads conv) =
      match readsOutcome reads with
      | .deadline => afterCapture date (log ++ writtenBytes reads) pub
          (writtenBytes reads).length conv
      | .closed => afterCapture date (log ++ writtenBytes reads) pub
          (writtenBytes reads).length conv
      | .sockError => ⟨log ++ writtenBytes reads, pub,
          (writtenBytes reads).length, [], 0, 10⟩
      | .ioError => ⟨log ++ writtenBytes reads, pub,
          (writtenBytes reads).length, [], 0, 10⟩ := by
  simp only [runIteration, captureLoop_eq, Nat.zero_add]
  cases readsOutcome reads <;> rfl

/-- `afterCapture` never touches the log. -/
lemma afterCapture_log (date : String) (log : Bytes) (pub : Option Bytes)
    (n : Nat) (conv : ConvEvent) :
    (afterCapture date log pub n conv).log = log := by
  unfold afterCapture; split <;> rfl

/-- `afterCapture` reports the counter it was given. -/
lemma afterCapture_bytes (date : String) (log : Bytes) (pub : Option Bytes)
    (n : Nat) (conv : ConvEvent) :
    (afterCapture date log pub n conv).bytesReceived = n := by
  unfold afterCapture; split <;> rfl

/-- `afterCapture` does not sleep: only exception handlers do. -/
lemma afterCapture_sleep (date : String) (log : Bytes) (pub : Option Bytes)
    (n : Nat) (conv : ConvEvent) :
    (afterCapture date log pub n conv).sleepSecs = 0 := by
  unfold afterCapture; split <;> rfl

/-- The capture log after a connected pass is the prior content plus the
bytes written during the interval, whatever the converter does. -/
lemma runIteration_log (date : String) (log : Bytes) (pub : Option Bytes)
    (reads : List ReadEvent) (conv : ConvEvent) :
    (runIteration date log pub (.session reads conv)).log =
      log ++ writtenBytes reads := by
  rw [runIteration_session]
  cases readsOutcome reads <;> simp [afterCapture_log]

/-- The byte counter observed by the scheduler is the number of bytes
written during this interval alone: it does not depend on the prior log,
published content, or date (it is re-initialised to 0 at each pass). -/
lemma runIteration_bytes (date : String) (log : Bytes) (pub : Option Bytes)
    (reads : List ReadEvent) (conv : ConvEvent) :
    (runIteration date log pub (.session reads conv)).bytesReceived =
      (writtenBytes reads).length := by
  rw [runIteration_session]
  cases readsOutcome reads <;> simp [afterCapture_bytes]

/-- `iterSleep` on a session event, via the read schedule's outcome. -/
lemma iterSleep_session (reads : List ReadEvent) (conv : ConvEvent) :
    iterSleep (.session reads conv) =
      match readsOutcome reads with
      | .sockError => 10
      | .ioError => 10
      | _ => 0 := by
  simp only [iterSleep, captureLoop_eq]

/-- The post-pass sleep depends only on the event: 10 seconds whenever an
exception was caught, 0 otherwise. -/
lemma runIteration_sleep (date : String) (log : Bytes) (pub : Option Bytes)
    (ev : IterEvent) :
    (runIteration date log pub ev).sleepSecs = iterSleep ev := by
  cases ev with
  | connectFail => rfl
  | session reads conv =>
      rw [runIteration_session, iterSleep_session]
      cases readsOutcome reads <;> simp [afterCapture_sleep]

/-- Every scheduled event is processed: the loop body catches every
exception it can raise, so no event list is cut short. -/
lemma serviceRun_length (date : String) (evs : List IterEvent) :
    ∀ s : MainState, (serviceRun date s evs).2.length = evs.length := by
  induction evs with
  | nil => intro s; rfl
  | cons ev rest ih =>
      intro s
      simp [serviceRun, ih]

/-- The capture-log path and the published RINEX path always differ
(their lengths differ, whatever the date string is). -/
lemma masterSbf_ne_live (date : String) :
    masterSbfFilepath date ≠ liveRinexFilepath := by
  intro h
  have h2 := congrArg String.length h
  simp only [masterSbfFilepath, masterSbfFilename, liveRinexFilepath,
    String.length_append] at h2
  have e1 : OUTPUT_DIR.length = 19 := by decide
  have e2 : ("/" : String).length = 1 := by decide
  have e3 : ("master_log_" : String).length = 11 := by decide
  have e4 : (".sbf" : String).length = 4 := by decide
  have e5 : LIVE_RINEX_FILENAME.length = 12 := by decide
  omega

/-- A schedule of clean receives writes exactly the chunks' concatenation. -/
lemma writtenBytes_recvs (chunks : List Bytes) (h : ∀ d ∈ chunks, d ≠ []) :
    writtenBytes (chunks.map ReadEvent.recv) = chunks.flatten := by
  induction chunks with
  | nil => rfl
  | cons d rest ih =>
      have hd : d.isEmpty = false := by
        have hne := h d (by simp)
        cases d
        · simp at hne
        · rfl
      simp [writtenBytes, hd, ih (fun x hx => h x (List.mem_cons_of_mem _ hx))]

/-! ### Claim C1: publication mechanism -/

/-- C1 (counterexample): the claim says every conversion cycle updates the
published artifact by an atomic rename/replace of a candidate written to a
private path. In fact a cycle's only filesystem-affecting operation is the
single `subprocess.run` whose `-O` argument is the published path itself:
no rename operation of any kind occurs in the cycle run on the concrete
paths of the service. -/
theorem C1_no_atomic_rename :
    conversionEffects (masterSbfFilepath "20250101") liveRinexFilepath =
      [FsOp.run (convertCommand (masterSbfFilepath "20250101")
        liveRinexFilepath) 30] ∧
    (convertCommand (masterSbfFilepath "20250101")
        liveRinexFilepath).getLast? = some liveRinexFilepath ∧
    ¬ ∃ src tmp, FsOp.rename src tmp ∈
        conversionEffects (masterSbfFilepath "20250101") liveRinexFilepath := by
  refine ⟨rfl, rfl, ?_⟩
  rintro ⟨src, tmp, hmem⟩
  simp [conversionEffects] at hmem

/-- C1 (amended): every conversion cycle performs exactly one filesystem
operation — running the converter subprocess — and every subprocess run in
the cycle has the published output path as its final (`-O`) argument with
a 30-second timeout; no rename/replace of a private candidate into the
published path exists, so the published file is rewritten in place by the
external converter rather than atomically swapped. -/
theorem C1_direct_overwrite_publication (sbf out : String) :
    (∀ src tmp, FsOp.rename src tmp ∉ conversionEffects sbf out) ∧
    ∀ cmd t, FsOp.run cmd t ∈ conversionEffects sbf out →
      cmd.getLast? = some out ∧ "-O" ∈ cmd ∧ t = 30 := by
  constructor
  · intro src tmp hmem
    simp [conversionEffects] at hmem
  · intro cmd t hmem
    simp only [conversionEffects, List.mem_singleton] at hmem
    obtain ⟨hcmd, ht⟩ := FsOp.run.inj hmem
    subst hcmd
    subst ht
    refine ⟨rfl, ?_, rfl⟩
    simp [convertCommand]

/-- C1 (witness for the amended theorem at concrete paths). -/
theorem C1_direct_overwrite_publication_witness :
    (∀ src tmp, FsOp.rename src tmp ∉
        conversionEffects "in.sbf" "out.rnx") ∧
    (convertCommand "in.sbf" "out.rnx").getLast? = some "out.rnx" ∧
    "-O" ∈ convertCommand "in.sbf" "out.rnx" := by
  have h := (C1_direct_overwrite_publication "in.sbf" "out.rnx").2
    (convertCommand "in.sbf" "out.rnx") 30 (by simp [conversionEffects])
  exact ⟨(C1_direct_overwrite_publication "in.sbf" "out.rnx").1, h.1, h.2.1⟩

/-! ### Claim C2: capture-log write failure -/

/-- C2 (counterexample): the claim says a capture-log write failure is
fatal and makes the process exit non-zero. In fact the failure is caught
by the loop's exception handlers: the pass sleeps 10 seconds, invokes no
converter, and the service goes on to process the next pass — here it
captures a further byte and even publishes — instead of exiting. -/
theorem C2_write_failure_not_fatal :
    (runIteration "20250101" [] none
      (.session [ReadEvent.writeFail [1, 2]] (ConvEvent.success [9]))).sleepSecs
        = 10 ∧
    (runIteration "20250101" [] none
      (.session [ReadEvent.writeFail [1, 2]]
        (ConvEvent.success [9]))).convInvoked = false ∧
    (serviceRun "20250101" ⟨[], none⟩
      [.session [ReadEvent.writeFail [1, 2]] (ConvEvent.success [9]),
       .session [ReadEvent.recv [7]] (ConvEvent.success [3])]).2.length = 2 ∧
    (serviceRun "20250101" ⟨[], none⟩
      [.session [ReadEvent.writeFail [1, 2]] (ConvEvent.success [9]),
       .session [ReadEvent.recv [7]] (ConvEvent.success [3])]).1 =
      ⟨[7], some [3]⟩ := by
  refine ⟨rfl, rfl, rfl, ?_⟩
  decide

/-- C2 (amended): when appending a received chunk to the capture log
fails, the exception is caught by the `except` handlers of the main loop
(in Python 3 `socket.error` is `OSError`, so the write failure lands
there): the pass converts nothing, the service sleeps 10 seconds and
retries, and every subsequent scheduled pass is still processed — the
process does not exit. -/
theorem C2_write_failure_caught_and_retried (date : String) (log : Bytes)
    (pub : Option Bytes) (reads : List ReadEvent) (conv : ConvEvent)
    (log2 : Bytes) (n : Nat)
    (h : captureLoop log 0 reads = (log2, n, ReadOutcome.ioError)) :
    runIteration date log pub (.session reads conv) =
      ⟨log2, pub, n, [], 0, 10⟩ ∧
    ∀ (s : MainState) (rest : List IterEvent),
      (serviceRun date s (IterEvent.session reads conv :: rest)).2.length =
        rest.length + 1 := by
  constructor
  · simp only [runIteration, h]
  · intro s rest
    rw [serviceRun_length]
    rfl

/-- C2 (witness): the amended theorem applied to a concrete failing write. -/
theorem C2_write_failure_caught_and_retried_witness :
    runIteration "20250101" [] none
        (.session [ReadEvent.writeFail [5]] (ConvEvent.success [])) =
      ⟨[], none, 0, [], 0, 10⟩ ∧
    ∀ (s : MainState) (rest : List IterEvent),
      (serviceRun "20250101" s
        (IterEvent.session [ReadEvent.writeFail [5]]
          (ConvEvent.success []) :: rest)).2.length = rest.length + 1 :=
  C2_write_failure_caught_and_retried "20250101" [] none
    [ReadEvent.writeFail [5]] (ConvEvent.success []) [] 0 (by decide)

/-! ### Claim C3: converter non-zero exit -/

/-- C3 (counterexample): the claim says that after a cycle whose converter
exits non-zero the published artifact is byte-identical to before. But the
converter is handed the published path itself as its output, so a failing
converter that has already overwritten it leaves the published content
changed: here the prior content `[1, 2, 3]` becomes `[9]` even though the
exit was non-zero (and was reported once). -/
theorem C3_nonzero_exit_can_change_artifact :
    (runIteration "20250101" [] (some [1, 2, 3])
      (.session [ReadEvent.recv [5]]
        (ConvEvent.nonZeroExit 1 (some [9])))).pub = some [9] ∧
    some [9] ≠ (some [1, 2, 3] : Option Bytes) ∧
    (runIteration "20250101" [] (some [1, 2, 3])
      (.session [ReadEvent.recv [5]]
        (ConvEvent.nonZeroExit 1 (some [9])))).convReports = 1 := by
  refine ⟨rfl, ?_, rfl⟩
  decide

/-- C3 (amended): when the converter exits non-zero in a converting cycle,
the failure is reported exactly once, the pass does not sleep or escalate,
and the service continues with every following scheduled pass; the
published artifact is unchanged exactly when the failing converter wrote
nothing to the output path (the code itself never touches it), and equals
whatever the converter left there otherwise. -/
theorem C3_nonzero_exit_reported_once_and_skipped (date : String)
    (log : Bytes) (pub : Option Bytes) (reads : List ReadEvent)
    (code : Nat) (w : Option Bytes) (log2 : Bytes) (n : Nat)
    (hcap : captureLoop log 0 reads = (log2, n, ReadOutcome.deadline) ∨
            captureLoop log 0 reads = (log2, n, ReadOutcome.closed))
    (hn : 0 < n) :
    (runIteration date log pub
        (.session reads (.nonZeroExit code w))).convReports = 1 ∧
    (runIteration date log pub
        (.session reads (.nonZeroExit code w))).sleepSecs = 0 ∧
    (w = none → (runIteration date log pub
        (.session reads (.nonZeroExit code w))).pub = pub) ∧
    (∀ b, w = some b → (runIteration date log pub
        (.session reads (.nonZeroExit code w))).pub = some b) ∧
    ∀ (s : MainState) (rest : List IterEvent),
      (serviceRun date s
        (IterEvent.session reads (ConvEvent.nonZeroExit code w) :: rest)).2.length
          = rest.length + 1 := by
  have hrun : runIteration date log pub (.session reads (.nonZeroExit code w)) =
      afterCapture date log2 pub n (.nonZeroExit code w) := by
    rcases hcap with hcap | hcap <;> simp only [runIteration, hcap]
  rw [hrun]
  refine ⟨?_, ?_, ?_, ?_, ?_⟩
  · unfold afterCapture; rw [if_pos hn]; rfl
  · unfold afterCapture; rw [if_pos hn]
  · intro hw
    subst hw
    unfold afterCapture; rw [if_pos hn]; rfl
  · intro b hw
    subst hw
    unfold afterCapture; rw [if_pos hn]; rfl
  · intro s rest
    rw [serviceRun_length]
    rfl

/-- C3 (witness): the amended theorem at a concrete converting cycle whose
converter exits 1 without writing. -/
theorem C3_nonzero_exit_reported_once_and_skipped_witness :
    (runIteration "20250101" [] (some [1, 2])
        (.session [ReadEvent.recv [5]]
          (.nonZeroExit 1 none))).convReports = 1 ∧
    (runIteration "20250101" [] (some [1, 2])
        (.session [ReadEvent.recv [5]]
          (.nonZeroExit 1 none))).pub = some [1, 2] := by
  have h := C3_nonzero_exit_reported_once_and_skipped "20250101" [] (some [1, 2])
    [ReadEvent.recv [5]] 1 none [5] 1 (Or.inl (by decide)) (by decide)
  exact ⟨h.1, h.2.2.1 rfl⟩

/-! ### Claim C4: converter executable missing -/

/-- C4 (counterexample): the claim says a missing converter executable is
fatal and the service stops. In fact `convert_sbf_to_rinex` catches
`FileNotFoundError`, prints the message and returns `False`, which `main`
ignores: the service keeps looping, and on the very next pass it attempts
the converter again (and here succeeds and publishes). -/
theorem C4_executable_not_found_not_fatal :
    (serviceRun "20250101" ⟨[], none⟩
      [.session [ReadEvent.recv [5]] ConvEvent.notFound,
       .session [ReadEvent.recv [6]] (ConvEvent.success [9])]).2.length = 2 ∧
    ((serviceRun "20250101" ⟨[], none⟩
      [.session [ReadEvent.recv [5]] ConvEvent.notFound,
       .session [ReadEvent.recv [6]] (ConvEvent.success [9])]).2[1]?).map
        IterResult.convInvoked = some true ∧
    (serviceRun "20250101" ⟨[], none⟩
      [.session [ReadEvent.recv [5]] ConvEvent.notFound,
       .session [ReadEvent.recv [6]] (ConvEvent.success [9])]).1.pub =
      some [9] ∧
    (convert_sbf_to_rinex none ConvEvent.notFound).ok = false := by
  refine ⟨rfl, ?_, ?_, rfl⟩ <;> decide

/-- C4 (amended): when the converter executable is not found in a
converting cycle, the error is reported once, the published artifact is
untouched (the subprocess never started), `convert_sbf_to_rinex` returns
`False` — a value `main` ignores — and the service continues to run every
following scheduled cycle rather than stopping. -/
theorem C4_executable_not_found_reported_and_continue (date : String)
    (log : Bytes) (pub : Option Bytes) (reads : List ReadEvent)
    (log2 : Bytes) (n : Nat)
    (hcap : captureLoop log 0 reads = (log2, n, ReadOutcome.deadline) ∨
            captureLoop log 0 reads = (log2, n, ReadOutcome.closed))
    (hn : 0 < n) :
    (runIteration date log pub (.session reads .notFound)).convReports = 1 ∧
    (runIteration date log pub (.session reads .notFound)).pub = pub ∧
    (convert_sbf_to_rinex pub .notFound).ok = false ∧
    ∀ (s : MainState) (rest : List IterEvent),
      (serviceRun date s
        (IterEvent.session reads ConvEvent.notFound :: rest)).2.length =
          rest.length + 1 := by
  have hrun : runIteration date log pub (.session reads .notFound) =
      afterCapture date log2 pub n .notFound := by
    rcases hcap with hcap | hcap <;> simp only [runIteration, hcap]
  have hafter : afterCapture date log2 pub n .notFound =
      ⟨log2, pub, n,
       [(convertCommand (masterSbfFilepath date) liveRinexFilepath, 30)],
       1, 0⟩ := by
    unfold afterCapture
    rw [if_pos hn]
    rfl
  rw [hrun, hafter]
  refine ⟨rfl, rfl, rfl, ?_⟩
  intro s rest
  rw [serviceRun_length]
  rfl

/-- C4 (witness): the amended theorem at a concrete cycle with the
executable missing. -/
theorem C4_executable_not_found_reported_and_continue_witness :
    (runIteration "20250101" [] (some [1])
        (.session [ReadEvent.recv [5]] .notFound)).convReports = 1 ∧
    (runIteration "20250101" [] (some [1])
        (.session [ReadEvent.recv [5]] .notFound)).pub = some [1] :=
  ⟨(C4_executable_not_found_reported_and_continue "20250101" [] (some [1])
      [ReadEvent.recv [5]] [5] 1 (Or.inl (by decide)) (by decide)).1,
   (C4_executable_not_found_reported_and_continue "20250101" [] (some [1])
      [ReadEvent.recv [5]] [5] 1 (Or.inl (by decide)) (by decide)).2.1⟩

/-! ### Claim C5: capture log is the concatenation of received chunks -/

/-- C5: for any sequence of byte chunks received from the upstream session
(with no storage failure), across any number of sessions, the capture
log's final content equals the initial content followed by the
concatenation of all chunks in receipt order — a later session
(reconnect) appends to what earlier sessions logged, never overwriting or
truncating it. -/
theorem C5_log_is_concatenation (date : String) (log0 : Bytes)
    (pub : Option Bytes) (sessions : List (List Bytes × ConvEvent))
    (h : ∀ p ∈ sessions, ∀ d ∈ p.1, d ≠ []) :
    (serviceRun date ⟨log0, pub⟩ (sessions.map cleanSession)).1.log =
      log0 ++ (sessions.map (fun p => p.1.flatten)).flatten := by
  revert h
  induction sessions generalizing log0 pub with
  | nil =>
      intro h
      simp [serviceRun]
  | cons p rest ih =>
      intro h
      have h1 : ∀ d ∈ p.1, d ≠ [] := fun d hd => h p (by simp) d hd
      have h2 : ∀ q ∈ rest, ∀ d ∈ q.1, d ≠ [] :=
        fun q hq d hd => h q (by simp [hq]) d hd
      simp only [List.map_cons, serviceRun]
      rw [ih _ _ h2]
      simp only [cleanSession, runIteration_log, writtenBytes_recvs p.1 h1]
      simp [List.append_assoc]

/-- C5 (witness): two sessions, chunks `[1,2]` then `[3]`; the log is
their concatenation — the reconnect appended. -/
theorem C5_log_is_concatenation_witness :
    (serviceRun "20250101" ⟨[], none⟩
      ([([[1, 2]], ConvEvent.success [7]),
        ([[3]], ConvEvent.success [8])].map cleanSession)).1.log =
      [] ++ ([([[1, 2]], ConvEvent.success [7]),
        ([[3]], ConvEvent.success [8])].map
          (fun p => p.1.flatten)).flatten :=
  C5_log_is_concatenation "20250101" [] none
    [([[1, 2]], ConvEvent.success [7]), ([[3]], ConvEvent.success [8])]
    (by decide)

/-! ### Claim C6: zero-byte cycles are skipped -/

/-- C6: a cycle whose interval captured zero new bytes skips the converter
entirely; the converter is invoked only when the per-interval byte counter
is non-zero; and the counter is reset at each cycle boundary — its value
is a function of this interval's reads alone, independent of all prior
state. -/
theorem C6_zero_byte_cycle_skipped (date : String) (log : Bytes)
    (pub : Option Bytes) (reads : List ReadEvent) (conv : ConvEvent) :
    ((runIteration date log pub (.session reads conv)).bytesReceived = 0 →
      (runIteration date log pub (.session reads conv)).convInvoked
        = false) ∧
    ((runIteration date log pub (.session reads conv)).convInvoked = true →
      0 < (runIteration date log pub (.session reads conv)).bytesReceived) ∧
    (runIteration date log pub (.session reads conv)).bytesReceived =
      (writtenBytes reads).length := by
  have hb := runIteration_bytes date log pub reads conv
  refine ⟨?_, ?_, hb⟩
  · intro h0
    rw [hb] at h0
    rw [runIteration_session]
    cases hro : readsOutcome reads <;>
      simp [IterResult.convInvoked, afterCapture, h0]
  · intro hinv
    rw [hb]
    rcases Nat.eq_zero_or_pos (writtenBytes reads).length with hm | hm
    · exfalso
      rw [runIteration_session] at hinv
      cases hro : readsOutcome reads <;> rw [hro] at hinv <;>
        simp [afterCapture, hm, IterResult.convInvoked] at hinv
    · exact hm

/-- C6 (witness): an empty interval skips; a 1-chunk interval has a
positive counter. -/
theorem C6_zero_byte_cycle_skipped_witness :
    (runIteration "20250101" [] none
      (.session [] (ConvEvent.success [1]))).convInvoked = false ∧
    0 < (runIteration "20250101" [] none
      (.session [ReadEvent.recv [3]] (ConvEvent.success [1]))).bytesReceived := by
  constructor
  · exact (C6_zero_byte_cycle_skipped "20250101" [] none []
      (ConvEvent.success [1])).1 (by decide)
  · exact (C6_zero_byte_cycle_skipped "20250101" [] none [ReadEvent.recv [3]]
      (ConvEvent.success [1])).2.1 (by decide)

/-! ### Claim C7: scheduler vs connection state -/

/-- C7 (counterexample): the claim says a mid-interval connection drop
(read failure included) never prevents the cycle from processing the
already-captured bytes. But when `sock.recv` raises after 3 bytes were
captured, the exception skips lines 112-118: the bytes are durably in the
log, yet the converter is not invoked in that cycle. -/
theorem C7_read_failure_skips_cycle :
    (runIteration "20250101" [] none
      (.session [ReadEvent.recv [1, 2, 3], ReadEvent.recvFail]
        (ConvEvent.success [9]))).log = [1, 2, 3] ∧
    0 < (runIteration "20250101" [] none
      (.session [ReadEvent.recv [1, 2, 3], ReadEvent.recvFail]
        (ConvEvent.success [9]))).bytesReceived ∧
    (runIteration "20250101" [] none
      (.session [ReadEvent.recv [1, 2, 3], ReadEvent.recvFail]
        (ConvEvent.success [9]))).convInvoked = false := by
  refine ⟨rfl, ?_, rfl⟩
  decide

/-- C7 (amended): only a clean remote close mid-interval lets the cycle
fire with the captured bytes: the `break` reaches the conversion step, and
a cycle with a positive counter converts. A read failure (exception)
instead aborts the pass before the conversion step — the captured bytes
stay durably in the log but are processed only by a later cycle, after the
10-second retry sleep. The firing is therefore not independent of
connection state. -/
theorem C7_close_fires_exception_skips (date : String) (log : Bytes)
    (pub : Option Bytes) (readsA readsB : List ReadEvent) (conv : ConvEvent)
    (logA : Bytes) (nA : Nat) (logB : Bytes) (nB : Nat)
    (hA : captureLoop log 0 readsA = (logA, nA, ReadOutcome.closed))
    (hnA : 0 < nA)
    (hB : captureLoop log 0 readsB = (logB, nB, ReadOutcome.sockError)) :
    (runIteration date log pub (.session readsA conv)).convInvoked = true ∧
    (runIteration date log pub (.session readsB conv)).convInvoked = false ∧
    (runIteration date log pub (.session readsB conv)).log = logB ∧
    (runIteration date log pub (.session readsB conv)).sleepSecs = 10 := by
  refine ⟨?_, ?_, ?_, ?_⟩
  · simp only [runIteration, hA]
    unfold afterCapture
    rw [if_pos hnA]
    rfl
  · simp only [runIteration, hB]
    rfl
  · simp only [runIteration, hB]
  · simp only [runIteration, hB]

/-- C7 (witness): a clean close after 1 byte converts; a read failure
after 1 byte does not, though the byte is logged. -/
theorem C7_close_fires_exception_skips_witness :
    (runIteration "20250101" [] none
      (.session [ReadEvent.recv [1], ReadEvent.recv []]
        (ConvEvent.success [9]))).convInvoked = true ∧
    (runIteration "20250101" [] none
      (.session [ReadEvent.recv [2], ReadEvent.recvFail]
        (ConvEvent.success [9]))).convInvoked = false ∧
    (runIteration "20250101" [] none
      (.session [ReadEvent.recv [2], ReadEvent.recvFail]
        (ConvEvent.success [9]))).log = [2] := by
  have h := C7_close_fires_exception_skips "20250101" [] none
    [ReadEvent.recv [1], ReadEvent.recv []]
    [ReadEvent.recv [2], ReadEvent.recvFail]
    (ConvEvent.success [9]) [1] 1 [2] 1 (by decide) (by decide) (by decide)
  exact ⟨h.1, h.2.1, h.2.2.1⟩

/-! ### Claim C8: full-log reprocessing, bounded subprocess, log untouched -/

/-- C8: every cycle that invokes the converter runs it on the full
cumulative capture log path (the single master SBF file every session
appends to — its `-f` argument), as a subprocess bounded by the 30-second
timeout; the invocation leaves the capture log exactly as the interval's
appends left it, and the converter's output path differs from the log
path. -/
theorem C8_full_log_bounded_subprocess (date : String) (log : Bytes)
    (pub : Option Bytes) (reads : List ReadEvent) (conv : ConvEvent)
    (h : (runIteration date log pub (.session reads conv)).convInvoked
      = true) :
    (runIteration date log pub (.session reads conv)).convCalls =
      [(convertCommand (masterSbfFilepath date) liveRinexFilepath, 30)] ∧
    (runIteration date log pub (.session reads conv)).log =
      log ++ writtenBytes reads ∧
    masterSbfFilepath date ≠ liveRinexFilepath := by
  refine ⟨?_, runIteration_log date log pub reads conv, masterSbf_ne_live date⟩
  rw [runIteration_session] at h ⊢
  cases hro : readsOutcome reads
  case deadline =>
    rw [hro] at h
    rcases Nat.eq_zero_or_pos (writtenBytes reads).length with hm | hm
    · simp [afterCapture, hm, IterResult.convInvoked] at h
    · show (afterCapture date (log ++ writtenBytes reads) pub
        ((writtenBytes reads).length) conv).convCalls = _
      unfold afterCapture
      rw [if_pos hm]
  case closed =>
    rw [hro] at h
    rcases Nat.eq_zero_or_pos (writtenBytes reads).length with hm | hm
    · simp [afterCapture, hm, IterResult.convInvoked] at h
    · show (afterCapture date (log ++ writtenBytes reads) pub
        ((writtenBytes reads).length) conv).convCalls = _
      unfold afterCapture
      rw [if_pos hm]
  case sockError =>
    rw [hro] at h
    simp [IterResult.convInvoked] at h
  case ioError =>
    rw [hro] at h
    simp [IterResult.convInvoked] at h

/-- C8 (witness): a converting cycle's single subprocess call, on the
master log path with the 30-second timeout. -/
theorem C8_full_log_bounded_subprocess_witness :
    (runIteration "20250101" [] none
      (.session [ReadEvent.recv [1]] (ConvEvent.success []))).convCalls =
      [(convertCommand (masterSbfFilepath "20250101") liveRinexFilepath, 30)] ∧
    masterSbfFilepath "20250101" ≠ liveRinexFilepath := by
  have h := C8_full_log_bounded_subprocess "20250101" [] none
    [ReadEvent.recv [1]] (ConvEvent.success []) (by decide)
  exact ⟨h.1, h.2.2⟩

/-! ### Claim C9: backoff and unbounded retries -/

/-- C9: after every failed connection attempt (connect failure or read
failure), the next attempt's timestamp is at least the 10-second backoff
later; and the retries are unbounded — every scheduled pass yields a
connection attempt no matter how many failures preceded it. -/
theorem C9_backoff_and_unbounded_retries (t dur : Nat) (ev : IterEvent)
    (rest : List (Nat × IterEvent)) (h : connectionFailed ev = true) :
    (∀ u, (attemptTimes t ((dur, ev) :: rest))[1]? = some u → t + 10 ≤ u) ∧
    ∀ (l : List (Nat × IterEvent)) (t2 : Nat),
      (attemptTimes t2 l).length = l.length := by
  constructor
  · intro u hu
    have hs : iterSleep ev = 10 := by
      cases ev with
      | connectFail => rfl
      | session reads conv =>
          rw [iterSleep_session]
          simp only [connectionFailed, captureLoop_eq] at h
          cases hro : readsOutcome reads <;> rw [hro] at h <;> simp_all
    cases rest with
    | nil => simp [attemptTimes] at hu
    | cons p rest2 =>
        simp only [attemptTimes, List.getElem?_cons_succ,
          List.getElem?_cons_zero, Option.some.injEq] at hu
        rw [hs] at hu
        omega
  · intro l
    induction l with
    | nil => intro t2; rfl
    | cons p xs ih =>
        intro t2
        simp [attemptTimes, ih]

/-- C9 (witness): after a failed connect at time 0 taking no time, the
next attempt is at time 10 ≥ 0 + 10; one scheduled pass, one attempt. -/
theorem C9_backoff_and_unbounded_retries_witness :
    (0 : Nat) + 10 ≤ 10 ∧
    (attemptTimes 0 [(0, IterEvent.connectFail)]).length = 1 := by
  have h := C9_backoff_and_unbounded_retries 0 0 IterEvent.connectFail
    [(0, IterEvent.connectFail)] (by decide)
  exact ⟨h.1 10 (by decide), h.2 [(0, IterEvent.connectFail)] 0⟩

/-! ### Claim C10: output directory creation at startup -/

/-- C10: at startup, before any connection attempt or capture, the service
creates the output directory when no such path exists — adding exactly
that directory and touching no file — and when the directory already
exists it changes nothing at all; in every case existing files are left
untouched. -/
theorem C10_output_dir_startup (fs : Fs) :
    (pathExists fs OUTPUT_DIR = false →
      startupMkdir fs = ⟨OUTPUT_DIR :: fs.dirs, fs.files⟩) ∧
    (fs.dirs.contains OUTPUT_DIR = true → startupMkdir fs = fs) ∧
    (startupMkdir fs).files = fs.files := by
  refine ⟨?_, ?_, ?_⟩
  · intro h
    simp [startupMkdir, h]
  · intro h
    have hp : pathExists fs OUTPUT_DIR = true := by
      unfold pathExists
      rw [h]
      rfl
    simp [startupMkdir, hp]
  · unfold startupMkdir
    split <;> rfl

/-- C10 (witness): from an empty filesystem the directory is created; when
it is already present nothing changes. -/
theorem C10_output_dir_startup_witness :
    startupMkdir ⟨[], []⟩ = ⟨[OUTPUT_DIR], []⟩ ∧
    startupMkdir ⟨[OUTPUT_DIR], []⟩ = ⟨[OUTPUT_DIR], []⟩ := by
  constructor
  · exact (C10_output_dir_startup ⟨[], []⟩).1 (by decide)
  · exact (C10_output_dir_startup ⟨[OUTPUT_DIR], []⟩).2.1 (by decide)

end SbfStream
